import Mathlib

/-!
# Verification of the agent execution core (ReAct engine, LLM gateway, tool executor)

Shallow embedding of the repository's agent-execution core:

* `ReActEngine.execute` (the bounded reasoning loop, its step trace, token/cost
  accumulation and error boundary),
* `LLMClient.chat` / `chatOpenAI` / `chatAnthropic` (the provider-adapting gateway),
* `ToolExecutor.execute` (the fixed tool registry).

External effects (the two provider HTTP APIs, outbound `fetch`, `JSON.parse`,
`Date.now()`, `uuidv4()`) are modelled as oracle functions threaded through the
definitions; database writes and logging have no observable effect on the values the
source returns to its caller and are not modelled.  JavaScript numbers used as token
counters are modelled as `Int` (the code performs no rounding on them) and monetary
amounts as `ℚ` (exact arithmetic in place of IEEE doubles).
-/

/-! ## Gateway data model (`packages/backend/src/llm/client.ts`) -/

/-- Message roles of the gateway's `Message` interface. -/
inductive Role where
  | system
  | user
  | assistant
  | function
deriving Repr, DecidableEq

/-- `Message`: role-tagged conversation entry; `name` carries the originating
tool name on tool-result (`function`) messages. -/
structure Message where
  role : Role
  content : String
  name : Option String := none
deriving Repr, DecidableEq

/-- `Tool.function`: the function-shaped tool schema handed to the gateway.
The `parameters` payload is opaque JSON, modelled as its string rendering. -/
structure ToolFunction where
  name : String
  description : String
  parameters : String
deriving Repr, DecidableEq

/-- `Tool` (source also fixes `type: 'function'`, a constant discriminator). -/
structure Tool where
  function : ToolFunction
deriving Repr, DecidableEq

/-- Usage counters of the gateway's uniform `LLMResponse`. -/
structure Usage where
  promptTokens : Int
  completionTokens : Int
  totalTokens : Int
deriving Repr, DecidableEq

/-- A uniform tool call extracted by the gateway: opaque id, tool name and
parsed argument data (opaque, modelled as a string). -/
structure ToolCall where
  id : String
  name : String
  arguments : String
deriving Repr, DecidableEq

/-- The gateway's uniform response shape. -/
structure LLMResponse where
  content : String
  toolCalls : Option (List ToolCall)
  usage : Usage
  model : String
deriving Repr, DecidableEq

/-! ## Engine data model (`react-engine.ts`) -/

/-- `ExecutionStep.stepType`. -/
inductive StepType where
  | reasoning
  | action
  | observation
  | final
deriving Repr, DecidableEq

/-- The `action` payload `{tool, arguments}` of an action step. -/
structure ActionPayload where
  tool : String
  arguments : String
deriving Repr, DecidableEq

/-- `ExecutionStep` log entry.  The source also records a wall-clock `timestamp`
(`new Date()`), which no consumer of the value inspects; it is omitted. -/
structure ExecutionStep where
  stepNumber : Nat
  stepType : StepType
  reasoning : Option String := none
  action : Option ActionPayload := none
  observation : Option String := none
deriving Repr, DecidableEq

/-- Terminal statuses of `ExecutionResult.status`. -/
inductive Status where
  | success
  | error
  | timeout
  | max_iterations
deriving Repr, DecidableEq

/-- `ExecutionResult`, the engine's single return value. -/
structure ExecutionResult where
  executionId : String
  status : Status
  output : String
  steps : List ExecutionStep
  tokensUsed : Int
  cost : ℚ
  executionTimeMs : Nat
  error : Option String := none
deriving Repr, DecidableEq

/-- One attached tool of an `AgentConfig`: name plus its machine-readable
schema, kept as the raw string the database stores (the engine `JSON.parse`s it). -/
structure AgentTool where
  id : String
  name : String
  schema : String
deriving Repr, DecidableEq

/-- `AgentConfig`, immutable input of one execution. -/
structure AgentConfig where
  id : String
  systemPrompt : String
  model : String
  maxIterations : Nat
  timeoutSeconds : Nat
  tools : List AgentTool
deriving Repr, DecidableEq

/-- Result of `JSON.parse(t.schema).function` as used by `buildSystemPrompt`:
the one field the engine reads is `description`.  `Except.error` models a thrown
`SyntaxError`/`TypeError` (invalid JSON, or missing `function` object). -/
structure ParsedSchema where
  description : String
deriving Repr, DecidableEq

/-- Environment of one execution: every effectful collaborator of
`ReActEngine.execute`, as a deterministic oracle.

* `executionId` — the `uuidv4()` drawn at entry.
* `parseSchema`  — `JSON.parse(schema).function`, per schema string.
* `chat` — the gateway call on iteration `i` (1-based); `Except.error` is a
  thrown/rejected gateway failure.
* `toolExec` — `toolExecutor.execute(name, args)` followed by
  `JSON.stringify(result)` for the call at (iteration, index within the
  iteration); `Except.ok` is the stringified `ToolResult`, `Except.error` a
  thrown exception (the engine catches it per call).
* `elapsed` — `Date.now() - startTime` as read by the timeout check at the top
  of iteration `i`.
* `endTime` — `Date.now() - startTime` as read when assembling the result. -/
structure Env where
  executionId : String
  parseSchema : String → Except String ParsedSchema
  chat : Nat → Except String LLMResponse
  toolExec : Nat → Nat → String → String → Except String String
  elapsed : Nat → Nat
  endTime : Nat

/-! ## Engine definitions -/

/-- Static per-model price table `ReActEngine.TOKEN_COSTS` (rates per token,
source writes them as dollars-per-1K divided by 1000). -/
def TOKEN_COSTS : String → Option (ℚ × ℚ) := fun model =>
  if model = "gpt-4-turbo-preview" then some (0.01 / 1000, 0.03 / 1000)
  else if model = "gpt-4" then some (0.03 / 1000, 0.06 / 1000)
  else if model = "gpt-3.5-turbo" then some (0.0005 / 1000, 0.0015 / 1000)
  else if model = "claude-3-opus-20240229" then some (0.015 / 1000, 0.075 / 1000)
  else if model = "claude-3-sonnet-20240229" then some (0.003 / 1000, 0.015 / 1000)
  else if model = "claude-3-haiku-20240307" then some (0.00025 / 1000, 0.00125 / 1000)
  else none

/-- `ReActEngine.calculateCost`: table lookup with the default rate pair for
unknown models (`TOKEN_COSTS[model] || {input: 0.01/1000, output: 0.03/1000}`). -/
def calculateCost (model : String) (promptTokens completionTokens : Int) : ℚ :=
  let costs := (TOKEN_COSTS model).getD (0.01 / 1000, 0.03 / 1000)
  (promptTokens : ℚ) * costs.1 + (completionTokens : ℚ) * costs.2

/-- The `reasoning` step pushed for a tool call (carries `response.content`). -/
def reasoningStep (n : Nat) (content : String) : ExecutionStep :=
  { stepNumber := n, stepType := .reasoning, reasoning := some content }

/-- The `action` step pushed for a tool call. -/
def actionStep (n : Nat) (tool arguments : String) : ExecutionStep :=
  { stepNumber := n, stepType := .action, action := some ⟨tool, arguments⟩ }

/-- The `observation` step pushed after executing a tool call. -/
def observationStep (n : Nat) (observation : String) : ExecutionStep :=
  { stepNumber := n, stepType := .observation, observation := some observation }

/-- The `final` step pushed for a tool-call-free response (the source stores the
response text in the `reasoning` field). -/
def finalStep (n : Nat) (content : String) : ExecutionStep :=
  { stepNumber := n, stepType := .final, reasoning := some content }

/-- Observation text for the tool call at (iteration, index): the stringified
`ToolResult` on success, `` `Error: ${error.message}` `` when the call threw. -/
def observationOf (toolExec : Nat → Nat → String → String → Except String String)
    (iteration j : Nat) (tc : ToolCall) : String :=
  match toolExec iteration j tc.name tc.arguments with
  | .ok s => s
  | .error m => "Error: " ++ m

/-- The body of `for (const toolCall of response.toolCalls)`: per call, push
`reasoning`/`action`/`observation` steps and append one assistant message plus
one `function`-role message carrying the observation and the tool name.
Returns the steps and messages appended by the whole loop; `j` is the index of
the first call (the source mutates `steps`/`messages` in place, appending). -/
def processToolCalls (toolExec : Nat → Nat → String → String → Except String String)
    (iteration : Nat) (content : String) :
    List ToolCall → Nat → List ExecutionStep × List Message
  | [], _ => ([], [])
  | tc :: rest, j =>
    let observation := observationOf toolExec iteration j tc
    let next := processToolCalls toolExec iteration content rest (j + 1)
    (reasoningStep iteration content :: actionStep iteration tc.name tc.arguments ::
       observationStep iteration observation :: next.1,
     Message.mk .assistant content none :: Message.mk .function observation (some tc.name) :: next.2)

/-- The mutable locals of the `while` loop that survive it: the conversation,
the step trace and the running token/cost totals. -/
structure LoopState where
  messages : List Message
  steps : List ExecutionStep
  tokensUsed : Int
  cost : ℚ
deriving Repr, DecidableEq

/-- Outcome of the `while` loop: the iteration counter, the `status` and
`finalAnswer` locals at exit, the surviving state, and — when the gateway call
threw — the propagating exception message (`thrown`). -/
structure LoopResult where
  iteration : Nat
  status : Status
  finalAnswer : String
  state : LoopState
  thrown : Option String
deriving Repr, DecidableEq

/-- The engine's `while (iteration < maxIterations)` loop.  `fuel` is a
structural-recursion bound; `execute` supplies `fuel = maxIterations`, under
which exhausting the fuel coincides with the `while` condition turning false
(each pass increments `iteration` by exactly 1 from 0), so the two exits return
the same value.  Per pass: increment `iteration`; timeout check
(`elapsed > timeoutSeconds * 1000`); gateway call (a throw exits the loop);
usage/cost accumulation; then either the final answer (no tool calls, matching
`!response.toolCalls || response.toolCalls.length === 0`) or the tool-call
loop followed by the next pass. -/
def runLoop (env : Env) (model : String) (timeoutSeconds maxIterations : Nat) :
    Nat → Nat → LoopState → LoopResult
  | 0, iteration, st => ⟨iteration, .success, "", st, none⟩
  | fuel + 1, iteration, st =>
    if iteration < maxIterations then
      let it := iteration + 1
      if env.elapsed it > timeoutSeconds * 1000 then
        ⟨it, .timeout, "Execution timed out", st, none⟩
      else
        match env.chat it with
        | .error e => ⟨it, .success, "", st, some e⟩
        | .ok r =>
          let st1 : LoopState :=
            { st with
                tokensUsed := st.tokensUsed + r.usage.totalTokens,
                cost := st.cost + calculateCost model r.usage.promptTokens r.usage.completionTokens }
          match r.toolCalls with
          | none =>
            ⟨it, .success, r.content,
             { st1 with steps := st1.steps ++ [finalStep it r.content] }, none⟩
          | some [] =>
            ⟨it, .success, r.content,
             { st1 with steps := st1.steps ++ [finalStep it r.content] }, none⟩
          | some (tc :: rest) =>
            let appended := processToolCalls env.toolExec it r.content (tc :: rest) 0
            runLoop env model timeoutSeconds maxIterations fuel it
              { st1 with
                  steps := st1.steps ++ appended.1,
                  messages := st1.messages ++ appended.2 }
    else ⟨iteration, .success, "", st, none⟩

/-- The `tools.map(t => \`- ${t.name}: ${JSON.parse(t.schema).function.description}\`)`
of `buildSystemPrompt`: the first unparsable schema throws out of the map. -/
def mapDescriptions (parseSchema : String → Except String ParsedSchema) :
    List AgentTool → Except String (List String)
  | [] => .ok []
  | t :: rest => do
    let p ← parseSchema t.schema
    let others ← mapDescriptions parseSchema rest
    pure (("- " ++ t.name ++ ": " ++ p.description) :: others)

/-- `buildSystemPrompt`: base prompt, the fixed ReAct contract text, and the
generated tool list joined with newlines.  `Except.error` models the throw on
an unparsable schema (which in the source escapes to `execute`'s outer catch). -/
def buildSystemPromptE (parseSchema : String → Except String ParsedSchema)
    (basePrompt : String) (tools : List AgentTool) : Except String String := do
  let descriptions ← mapDescriptions parseSchema tools
  pure (basePrompt ++
    "\n\nYou are an AI agent using the ReAct (Reasoning + Acting) pattern. For each task:\n\n1. **Reason**: Think step-by-step about what you need to do\n2. **Act**: Use the appropriate tool if needed\n3. **Observe**: Analyze the tool\x27s output\n4. **Repeat**: Continue until you have the final answer\n\nAvailable tools:\n" ++
    String.intercalate "\n" descriptions ++
    "\n\nWhen you have the final answer, respond directly without calling any tools.\n\nAlways think carefully and explain your reasoning.")

/-- The `try` body of `ReActEngine.execute`: build the system message (tool
schemas are parsed here; a parse failure throws before any gateway or tool
call), run the loop, then apply the post-loop
`iteration >= maxIterations && status === 'success'` rewrite and assemble the
result.  `Except.error` carries the thrown message together with the
`steps`/token/cost locals the outer catch block still sees. -/
def executeBody (env : Env) (cfg : AgentConfig) (input : String) :
    Except (String × LoopState) ExecutionResult :=
  match buildSystemPromptE env.parseSchema cfg.systemPrompt cfg.tools with
  | .error e => .error (e, ⟨[], [], 0, 0⟩)
  | .ok sys =>
    let messages : List Message := [⟨.system, sys, none⟩, ⟨.user, input, none⟩]
    let lr := runLoop env cfg.model cfg.timeoutSeconds cfg.maxIterations
      cfg.maxIterations 0 ⟨messages, [], 0, 0⟩
    match lr.thrown with
    | some e => .error (e, lr.state)
    | none =>
      let statusAnswer :=
        if cfg.maxIterations ≤ lr.iteration ∧ lr.status = Status.success then
          (Status.max_iterations, "Maximum iterations reached without finding a final answer")
        else (lr.status, lr.finalAnswer)
      .ok { executionId := env.executionId, status := statusAnswer.1,
            output := statusAnswer.2, steps := lr.state.steps,
            tokensUsed := lr.state.tokensUsed, cost := lr.state.cost,
            executionTimeMs := env.endTime, error := none }

/-- `ReActEngine.execute`: the `try` body wrapped in the single outer catch,
which forces status `error`, empty output, the message, and the step/token/cost
totals accumulated so far.  Total by construction: every call returns a
fully-formed `ExecutionResult`. -/
def execute (env : Env) (cfg : AgentConfig) (input : String) : ExecutionResult :=
  match executeBody env cfg input with
  | .ok r => r
  | .error (msg, st) =>
    { executionId := env.executionId, status := .error, output := "",
      steps := st.steps, tokensUsed := st.tokensUsed, cost := st.cost,
      executionTimeMs := env.endTime, error := some msg }

/-! ## LLM gateway (`LLMClient`) -/

/-- The request `chatOpenAI` hands to `openai.chat.completions.create` (the
message list verbatim, tools `undefined` when the list is empty). -/
structure OpenAIRequest where
  model : String
  messages : List Message
  tools : Option (List Tool)
  temperature : ℚ
  max_tokens : Nat
deriving Repr, DecidableEq

/-- Provider-side `function` payload of an OpenAI tool call: the arguments are
a raw JSON string the gateway still has to `JSON.parse`. -/
structure OpenAIFunctionCall where
  name : String
  arguments : String
deriving Repr, DecidableEq

/-- Provider-side OpenAI tool call. -/
structure OpenAIToolCall where
  id : String
  function : OpenAIFunctionCall
deriving Repr, DecidableEq

/-- Provider-side OpenAI choice message; `content` and `tool_calls` are
nullable. -/
structure OpenAIMessage where
  content : Option String
  tool_calls : Option (List OpenAIToolCall)
deriving Repr, DecidableEq

/-- Provider-side OpenAI choice. -/
structure OpenAIChoice where
  message : OpenAIMessage
deriving Repr, DecidableEq

/-- Provider-side OpenAI usage block; each counter is nullable (the gateway
applies `|| 0`). -/
structure OpenAIUsage where
  prompt_tokens : Option Int
  completion_tokens : Option Int
  total_tokens : Option Int
deriving Repr, DecidableEq

/-- Provider-side OpenAI chat completion. -/
structure OpenAIResponse where
  choices : List OpenAIChoice
  usage : Option OpenAIUsage
  model : String
deriving Repr, DecidableEq

/-- The `tool_calls?.map(...)` of `chatOpenAI`: each provider tool call's
argument string goes through `JSON.parse` (`parseJson` oracle); the first
parse failure throws out of the map. -/
def mapToolCalls (parseJson : String → Except String String) :
    List OpenAIToolCall → Except String (List ToolCall)
  | [] => .ok []
  | tc :: rest => do
    let args ← parseJson tc.function.arguments
    let others ← mapToolCalls parseJson rest
    pure (ToolCall.mk tc.id tc.function.name args :: others)

/-- The usage counters `chatOpenAI` returns: `response.usage?.<field> || 0`,
each forwarded independently — `total_tokens` is not recomputed. -/
def openAIUsageOf (usage : Option OpenAIUsage) : Usage :=
  { promptTokens := match usage with | none => 0 | some u => u.prompt_tokens.getD 0,
    completionTokens := match usage with | none => 0 | some u => u.completion_tokens.getD 0,
    totalTokens := match usage with | none => 0 | some u => u.total_tokens.getD 0 }

/-- `LLMClient.chatOpenAI`, as a function of the provider's response:
`choices[0]` (reading an empty `choices` array throws), tool calls mapped with
`JSON.parse` on their argument strings (a parse failure throws, `undefined`
stays absent), `content || ''`, and the usage counters forwarded with `|| 0`
defaults. -/
def chatOpenAI (parseJson : String → Except String String) (resp : OpenAIResponse) :
    Except String LLMResponse :=
  match resp.choices with
  | [] => .error "TypeError: Cannot read properties of undefined"
  | choice :: _ =>
    match choice.message.tool_calls with
    | none =>
      .ok { content := choice.message.content.getD "", toolCalls := none,
            usage := openAIUsageOf resp.usage, model := resp.model }
    | some tcs =>
      match mapToolCalls parseJson tcs with
      | .error e => .error e
      | .ok toolCalls =>
        .ok { content := choice.message.content.getD "", toolCalls := some toolCalls,
              usage := openAIUsageOf resp.usage, model := resp.model }

/-- One entry of the `messages` array `chatAnthropic` sends
(`Anthropic.MessageParam`): only a role string and content — no `name` field,
so the originating tool name of a `function`-role message is dropped. -/
structure AnthropicParam where
  role : String
  content : String
deriving Repr, DecidableEq

/-- Tool definition translated into Anthropic's schema field naming. -/
structure AnthropicTool where
  name : String
  description : String
  input_schema : String
deriving Repr, DecidableEq

/-- The request `chatAnthropic` hands to `anthropic.messages.create`: the
system text as a separate top-level field, the remaining turns, and the
translated tools (`undefined` when empty). -/
structure AnthropicRequest where
  model : String
  system : String
  messages : List AnthropicParam
  tools : Option (List AnthropicTool)
  temperature : ℚ
  max_tokens : Nat
deriving Repr, DecidableEq

/-- Provider-side Anthropic content block. -/
inductive AnthropicContent where
  | text (text : String)
  | tool_use (id : String) (name : String) (input : String)
deriving Repr, DecidableEq

/-- Provider-side Anthropic usage block. -/
structure AnthropicUsage where
  input_tokens : Int
  output_tokens : Int
deriving Repr, DecidableEq

/-- Provider-side Anthropic message response. -/
structure AnthropicResponse where
  content : List AnthropicContent
  usage : AnthropicUsage
  model : String
deriving Repr, DecidableEq

/-- The request-shaping half of `LLMClient.chatAnthropic`: the first
system-role message's content becomes the top-level `system` field (empty
string when absent), every non-system message becomes a turn whose role is
`assistant` for assistant messages and `user` otherwise (so `function`-role
tool results are forwarded as `user` turns, their `name` dropped), and tool
definitions are renamed into `{name, description, input_schema}`. -/
def anthropicRequest (messages : List Message) (model : String) (tools : List Tool)
    (temperature : ℚ) (maxTokens : Nat) : AnthropicRequest :=
  let systemMessage := ((messages.find? (fun m => m.role = Role.system)).map Message.content).getD ""
  let userMessages := (messages.filter (fun m => ¬(m.role = Role.system))).map
    (fun m => AnthropicParam.mk (if m.role = Role.assistant then "assistant" else "user") m.content)
  let tools2 := tools.map (fun t =>
    AnthropicTool.mk t.function.name t.function.description t.function.parameters)
  { model := model, system := systemMessage, messages := userMessages,
    tools := if tools2.isEmpty then none else some tools2,
    temperature := temperature, max_tokens := maxTokens }

/-- `LLMClient.chatAnthropic`: shape the request, call the provider (oracle),
then map the response into the uniform shape — first text block as `content`,
`tool_use` blocks as tool calls (`undefined` when there are none), and
`totalTokens` computed as `input_tokens + output_tokens`. -/
def chatAnthropic (messages : List Message) (model : String) (tools : List Tool)
    (temperature : ℚ) (maxTokens : Nat)
    (provider : AnthropicRequest → AnthropicResponse) : LLMResponse :=
  let resp := provider (anthropicRequest messages model tools temperature maxTokens)
  let textContent := resp.content.find? (fun c => match c with | .text _ => true | _ => false)
  let toolCalls := resp.content.filterMap (fun c => match c with
    | .tool_use id name input => some (ToolCall.mk id name input)
    | _ => none)
  { content := match textContent with | some (.text t) => t | _ => "",
    toolCalls := if toolCalls.isEmpty then none else some toolCalls,
    usage := { promptTokens := resp.usage.input_tokens,
               completionTokens := resp.usage.output_tokens,
               totalTokens := resp.usage.input_tokens + resp.usage.output_tokens },
    model := resp.model }

/-- `model.startsWith(prefix)`: string prefix test, written over the character
lists so it evaluates structurally. -/
def strStartsWith (s pre : String) : Bool :=
  pre.data.isPrefixOf s.data

/-- `LLMClient.chat`: route on the model-identifier prefix — `gpt-`/`o1-` to
the OpenAI branch, `claude-` to the Anthropic branch, anything else throws
`Unsupported model`.  The two provider calls are oracles; defaults
(temperature 0.7, maxTokens 4096) are applied by the caller-side
destructuring, modelled as explicit arguments here. -/
def LLMClient.chat (parseJson : String → Except String String)
    (openaiProvider : OpenAIRequest → OpenAIResponse)
    (anthropicProvider : AnthropicRequest → AnthropicResponse)
    (messages : List Message) (model : String) (tools : List Tool)
    (temperature : ℚ) (maxTokens : Nat) : Except String LLMResponse :=
  if strStartsWith model "gpt-" ∨ strStartsWith model "o1-" then
    chatOpenAI parseJson (openaiProvider
      { model := model, messages := messages,
        tools := if tools.isEmpty then none else some tools,
        temperature := temperature, max_tokens := maxTokens })
  else if strStartsWith model "claude-" then
    .ok (chatAnthropic messages model tools temperature maxTokens anthropicProvider)
  else
    .error ("Unsupported model: " ++ model)

/-! ## Tool executor (`packages/backend/src/tools/executor.ts`) -/

/-- The `data` payloads the five registered tools build, one constructor per
object shape in the source.  Fields that come from the (possibly `undefined`)
argument payload are `Option String`. -/
inductive ToolData where
  | searchFallback (query : Option String)
  | searchAnswer (query : Option String) (answer : String) (sources : List String)
  | emailQueued («to» : Option String) (subject : Option String)
  | dbPlaceholder (query : Option String)
  | httpResponse (status : Int) (statusText : String) (body : String)
  | slackQueued (channel : Option String)
deriving Repr, DecidableEq

/-- `ToolResult`. -/
structure ToolResult where
  success : Bool
  data : Option ToolData := none
  error : Option String := none
deriving Repr, DecidableEq

/-- The argument payload handed to `ToolExecutor.execute`, modelled as the
record of properties the five handlers read (an absent property is `none`,
matching JavaScript's `undefined`). -/
structure Args where
  query : Option String := none
  «to» : Option String := none
  subject : Option String := none
  body : Option String := none
  channel : Option String := none
  message : Option String := none
  method : Option String := none
  url : Option String := none
deriving Repr, DecidableEq

/-- A `fetch` response as the handlers read it: `ok`, `status`, `statusText`
and the body text. -/
structure FetchResponse where
  ok : Bool
  status : Int
  statusText : String
  body : String
deriving Repr, DecidableEq

/-- Effect oracles of the tool executor: the configured Perplexity key, the
two outbound `fetch` call sites (`Except.error` = rejected network call), and
the `response.json()` + field extraction of the Perplexity reply
(`(answer, citations)`; `Except.error` = a throw while reading it). -/
structure ToolEnv where
  perplexityApiKey : Option String
  fetchPerplexity : Option String → Except String FetchResponse
  parsePerplexity : String → Except String (String × List String)
  fetchHttp : Args → Except String FetchResponse

/-- `ToolExecutor.webSearch`: fallback payload when the Perplexity key is
unconfigured (still `success: true`); otherwise fetch, throw on a non-ok HTTP
status (`Perplexity API error`), read the answer; the handler's own catch turns
every throw into `{success: false, error}`. -/
def webSearch (env : ToolEnv) (query : Option String) : ToolResult :=
  match env.perplexityApiKey with
  | none =>
    { success := true, data := some (.searchFallback query) }
  | some _ =>
    match env.fetchPerplexity query with
    | .error e => { success := false, error := some e }
    | .ok resp =>
      if !resp.ok then
        { success := false, error := some ("Perplexity API error: " ++ resp.statusText) }
      else
        match env.parsePerplexity resp.body with
        | .error e => { success := false, error := some e }
        | .ok (answer, sources) =>
          { success := true, data := some (.searchAnswer query answer sources) }

/-- `ToolExecutor.sendEmail`: placeholder, always queues (the `body` argument
is only logged). -/
def sendEmail («to» subject body : Option String) : ToolResult :=
  { success := true, data := some (.emailQueued «to» subject) }

/-- `ToolExecutor.databaseQuery`: placeholder. -/
def databaseQuery (query : Option String) : ToolResult :=
  { success := true, data := some (.dbPlaceholder query) }

/-- `ToolExecutor.httpRequest`: fetch with its own catch; on a reply,
`success` is `response.ok` and the status/text/body are returned as data. -/
def httpRequest (env : ToolEnv) (args : Args) : ToolResult :=
  match env.fetchHttp args with
  | .error e => { success := false, error := some e }
  | .ok resp =>
    { success := resp.ok, data := some (.httpResponse resp.status resp.statusText resp.body) }

/-- `ToolExecutor.slackNotify`: placeholder, always queues (the `message`
argument is only logged). -/
def slackNotify (channel message : Option String) : ToolResult :=
  { success := true, data := some (.slackQueued channel) }

/-- The `try` body of `ToolExecutor.execute`: the fixed `switch` over tool
names; the `default` arm throws `Unknown tool`. -/
def ToolExecutor.executeBody (env : ToolEnv) (toolName : String) (args : Args) :
    Except String ToolResult :=
  if toolName = "web_search" then .ok (webSearch env args.query)
  else if toolName = "send_email" then .ok (sendEmail args.«to» args.subject args.body)
  else if toolName = "database_query" then .ok (databaseQuery args.query)
  else if toolName = "http_request" then .ok (httpRequest env args)
  else if toolName = "slack_notify" then .ok (slackNotify args.channel args.message)
  else .error ("Unknown tool: " ++ toolName)

/-- `ToolExecutor.execute`: the switch wrapped in the outer catch, which turns
any throw into `{success: false, error: message}` — the executor never
propagates an exception to its caller. -/
def ToolExecutor.execute (env : ToolEnv) (toolName : String) (args : Args) : ToolResult :=
  match ToolExecutor.executeBody env toolName args with
  | .ok r => r
  | .error e => { success := false, error := some e }

/-! ## Shared sample oracles for concrete instantiations -/

/-- A schema parser oracle that accepts every schema. -/
def sampleParse : String → Except String ParsedSchema := fun _ => .ok ⟨"desc"⟩

/-- A tool-execution oracle that always succeeds. -/
def sampleToolExec : Nat → Nat → String → String → Except String String :=
  fun _ _ _ _ => .ok "ok"

/-- A tool-call-free gateway response with the given text. -/
def finalResponse (content : String) : LLMResponse :=
  { content := content, toolCalls := none,
    usage := { promptTokens := 1, completionTokens := 2, totalTokens := 3 },
    model := "gpt-4" }

/-! ## C1 -/

/-- Gateway and clock for the C1 failing input: every iteration answers with
the tool-call-free response `"42"`. -/
def envC1 : Env :=
  { executionId := "e1", parseSchema := sampleParse,
    chat := fun _ => .ok (finalResponse "42"), toolExec := sampleToolExec,
    elapsed := fun _ => 0, endTime := 5 }

/-- Agent configuration for the C1 failing input: `maxIterations = 1`. -/
def cfgC1 : AgentConfig :=
  { id := "a1", systemPrompt := "base", model := "gpt-4",
    maxIterations := 1, timeoutSeconds := 300, tools := [] }

/-- Claim C1 (code bug, evaluated at the failing input): with
`maxIterations = 1` and a gateway response carrying no tool calls on
iteration 1, the engine does record the `final` step carrying the response
text `"42"`, but the post-loop check `iteration >= maxIterations && status ===
'success'` then overwrites the terminal status to `max_iterations` and replaces
the returned output with the fixed explanatory string — contradicting the
claimed `Success` status and output equal to the response text for the case
`i == maxIterations`. -/
theorem claim_C1_final_answer_at_max_iterations_is_discarded :
    envC1.chat 1 = .ok (finalResponse "42") ∧
    (finalResponse "42").toolCalls = none ∧
    cfgC1.maxIterations = 1 ∧
    (execute envC1 cfgC1 "q").steps = [finalStep 1 "42"] ∧
    (execute envC1 cfgC1 "q").status = Status.max_iterations ∧
    (execute envC1 cfgC1 "q").output =
      "Maximum iterations reached without finding a final answer" := by
  refine ⟨rfl, rfl, rfl, ?_, ?_, ?_⟩ <;> rfl

/-! ## C2 -/

/-- Claim C2: `execute` returns a fully-formed `ExecutionResult` on every
input (it is total by construction); whenever an exception escapes the loop,
the outer catch yields status `error`, empty output, the thrown message in the
`error` field, and the step/token/cost totals accumulated so far; in
particular, a gateway failure on iteration 1 yields status `error`, the thrown
message, and zero token/cost totals. -/
theorem claim_C2_error_boundary (env : Env) (cfg : AgentConfig) (input : String) :
    (∀ msg st, executeBody env cfg input = .error (msg, st) →
      execute env cfg input =
        { executionId := env.executionId, status := .error, output := "",
          steps := st.steps, tokensUsed := st.tokensUsed, cost := st.cost,
          executionTimeMs := env.endTime, error := some msg }) ∧
    (∀ e, 0 < cfg.maxIterations →
      env.elapsed 1 ≤ cfg.timeoutSeconds * 1000 →
      env.chat 1 = .error e →
      (buildSystemPromptE env.parseSchema cfg.systemPrompt cfg.tools).isOk →
      execute env cfg input =
        { executionId := env.executionId, status := .error, output := "",
          steps := [], tokensUsed := 0, cost := 0,
          executionTimeMs := env.endTime, error := some e }) := by
  constructor
  · intro msg st h
    simp only [execute, h]
  · intro e hmax htime hchat hok
    obtain ⟨sys, hsys⟩ : ∃ sys,
        buildSystemPromptE env.parseSchema cfg.systemPrompt cfg.tools = .ok sys := by
      cases h : buildSystemPromptE env.parseSchema cfg.systemPrompt cfg.tools with
      | ok s => exact ⟨s, rfl⟩
      | error _ => rw [h] at hok; simp [Except.isOk, Except.toBool] at hok
    obtain ⟨n, hn⟩ : ∃ n, cfg.maxIterations = n + 1 :=
      ⟨cfg.maxIterations - 1, by omega⟩
    simp only [execute, executeBody, hsys, hn, runLoop, Nat.succ_pos, if_true,
      Nat.not_lt.mpr htime, if_false, hchat, if_pos]

/-- Environment for the C2 witness: the gateway throws `"boom"` on every
iteration. -/
def envC2 : Env :=
  { executionId := "e2", parseSchema := sampleParse,
    chat := fun _ => .error "boom", toolExec := sampleToolExec,
    elapsed := fun _ => 0, endTime := 7 }

/-- Agent configuration for the C2 witness. -/
def cfgC2 : AgentConfig :=
  { id := "a2", systemPrompt := "base", model := "gpt-4",
    maxIterations := 3, timeoutSeconds := 300, tools := [] }

/-- Witness for C2: a gateway failure on iteration 1 yields a fully-formed
result with status `error`, the thrown message, and zero totals. -/
theorem claim_C2_error_boundary_witness :
    execute envC2 cfgC2 "q" =
      { executionId := "e2", status := .error, output := "", steps := [],
        tokensUsed := 0, cost := 0, executionTimeMs := 7, error := some "boom" } :=
  (claim_C2_error_boundary envC2 cfgC2 "q").2 "boom" (by decide) (by decide) rfl rfl

/-! ## C7 -/

/-- Environment for the C7 counterexample: the clock reads 0 elapsed
milliseconds at the first iteration's check. -/
def envC7 : Env :=
  { executionId := "e7", parseSchema := sampleParse,
    chat := fun _ => .ok (finalResponse "hi"), toolExec := sampleToolExec,
    elapsed := fun _ => 0, endTime := 0 }

/-- Agent configuration for the C7 counterexample: `timeoutSeconds = 0`. -/
def cfgC7 : AgentConfig :=
  { id := "a7", systemPrompt := "base", model := "gpt-4",
    maxIterations := 3, timeoutSeconds := 0, tools := [] }

/-- Counterexample to C7 as stated: with `timeoutSeconds = 0` but an elapsed
clock of 0 ms, the strict comparison `elapsed > timeoutSeconds * 1000` does
not fire — the gateway IS called (tokens are accumulated) and the execution
ends `success`, not `timeout`. -/
theorem claim_C7_zero_timeout_counterexample :
    cfgC7.timeoutSeconds = 0 ∧
    envC7.elapsed 1 = 0 ∧
    (execute envC7 cfgC7 "q").status = Status.success ∧
    (execute envC7 cfgC7 "q").status ≠ Status.timeout ∧
    (execute envC7 cfgC7 "q").tokensUsed = 3 := by
  refine ⟨rfl, rfl, ?_, ?_, ?_⟩ <;> decide

/-- Claim C7 as amended: the first iteration's timeout check fires exactly
when the elapsed clock at loop entry strictly exceeds `timeoutSeconds * 1000`
(so `timeoutSeconds = 0` fires only once at least 1 ms has elapsed); when it
fires, it does so before any gateway call — the result is independent of the
gateway and tool oracles — and the execution ends with status `timeout`, the
synthesized output `Execution timed out`, no steps and zero token/cost
totals. -/
theorem claim_C7_first_iteration_timeout_amended (env : Env) (cfg : AgentConfig)
    (input : String) (h1 : 0 < cfg.maxIterations)
    (h2 : cfg.timeoutSeconds * 1000 < env.elapsed 1)
    (h3 : (buildSystemPromptE env.parseSchema cfg.systemPrompt cfg.tools).isOk) :
    execute env cfg input =
      { executionId := env.executionId, status := .timeout,
        output := "Execution timed out", steps := [], tokensUsed := 0, cost := 0,
        executionTimeMs := env.endTime, error := none } ∧
    ∀ chat2 toolExec2,
      execute { env with chat := chat2, toolExec := toolExec2 } cfg input =
        execute env cfg input := by
  obtain ⟨sys, hsys⟩ : ∃ sys,
      buildSystemPromptE env.parseSchema cfg.systemPrompt cfg.tools = .ok sys := by
    cases h : buildSystemPromptE env.parseSchema cfg.systemPrompt cfg.tools with
    | ok s => exact ⟨s, rfl⟩
    | error _ => rw [h] at h3; simp [Except.isOk, Except.toBool] at h3
  obtain ⟨n, hn⟩ : ∃ n, cfg.maxIterations = n + 1 :=
    ⟨cfg.maxIterations - 1, by omega⟩
  have key : ∀ chat2 toolExec2,
      execute { env with chat := chat2, toolExec := toolExec2 } cfg input =
        { executionId := env.executionId, status := .timeout,
          output := "Execution timed out", steps := [], tokensUsed := 0, cost := 0,
          executionTimeMs := env.endTime, error := none } := by
    intro chat2 toolExec2
    simp only [execute, executeBody, hsys, hn, runLoop, Nat.succ_pos, if_true, if_pos h2]
    simp
  refine ⟨key env.chat env.toolExec, fun chat2 toolExec2 => ?_⟩
  rw [key chat2 toolExec2, key env.chat env.toolExec]

/-- Witness for the amended C7: 1 ms elapsed against a zero-second budget
fires the timeout before any gateway call. -/
theorem claim_C7_first_iteration_timeout_amended_witness :
    execute { envC7 with elapsed := fun _ => 1 } cfgC7 "q" =
      { executionId := "e7", status := .timeout, output := "Execution timed out",
        steps := [], tokensUsed := 0, cost := 0, executionTimeMs := 0,
        error := none } :=
  (claim_C7_first_iteration_timeout_amended { envC7 with elapsed := fun _ => 1 }
    cfgC7 "q" (by decide) (by decide) rfl).1

/-! ## C10 -/

/-- If some tool's schema fails to parse, the description map throws (with the
first failing tool's message). -/
theorem mapDescriptions_error_of_mem (parseSchema : String → Except String ParsedSchema)
    {t : AgentTool} {l : List AgentTool} {e0 : String}
    (ht : t ∈ l) (hp : parseSchema t.schema = .error e0) :
    ∃ e, mapDescriptions parseSchema l = .error e := by
  induction l with
  | nil => cases ht
  | cons hd tl ih =>
    cases h : parseSchema hd.schema with
    | error e1 => exact ⟨e1, by simp only [mapDescriptions, h]; rfl⟩
    | ok p =>
      rcases List.mem_cons.mp ht with rfl | htl
      · rw [h] at hp; cases hp
      · obtain ⟨e, he⟩ := ih htl
        exact ⟨e, by simp only [mapDescriptions, h, he]; rfl⟩

/-- Claim C10: an attached tool whose schema string does not parse makes
`execute` fail during system-prompt construction, before any gateway or tool
call (the result does not depend on the gateway/tool oracles): status `error`,
empty output, empty step list, zero token and cost totals. -/
theorem claim_C10_invalid_schema_fails_before_loop (env : Env) (cfg : AgentConfig)
    (input : String) (t : AgentTool) (e0 : String)
    (ht : t ∈ cfg.tools) (hp : env.parseSchema t.schema = .error e0) :
    ∃ e, buildSystemPromptE env.parseSchema cfg.systemPrompt cfg.tools = .error e ∧
      execute env cfg input =
        { executionId := env.executionId, status := .error, output := "",
          steps := [], tokensUsed := 0, cost := 0,
          executionTimeMs := env.endTime, error := some e } ∧
      ∀ chat2 toolExec2,
        execute { env with chat := chat2, toolExec := toolExec2 } cfg input =
          execute env cfg input := by
  obtain ⟨e, he⟩ := mapDescriptions_error_of_mem env.parseSchema ht hp
  have hb : buildSystemPromptE env.parseSchema cfg.systemPrompt cfg.tools = .error e := by
    simp only [buildSystemPromptE, he]; rfl
  refine ⟨e, hb, ?_, ?_⟩
  · simp only [execute, executeBody, hb]
  · intro chat2 toolExec2
    simp only [execute, executeBody, hb]

/-- Schema parser for the C10 witness: every schema is invalid JSON. -/
def parseC10 : String → Except String ParsedSchema :=
  fun _ => .error "Unexpected token"

/-- The attached tool of the C10 witness. -/
def toolC10 : AgentTool := { id := "t1", name := "badtool", schema := "notjson" }

/-- Environment for the C10 witness. -/
def envC10 : Env :=
  { executionId := "e10", parseSchema := parseC10,
    chat := fun _ => .ok (finalResponse "hi"), toolExec := sampleToolExec,
    elapsed := fun _ => 0, endTime := 9 }

/-- Agent configuration for the C10 witness: one tool with unparsable schema. -/
def cfgC10 : AgentConfig :=
  { id := "a10", systemPrompt := "base", model := "gpt-4",
    maxIterations := 3, timeoutSeconds := 300, tools := [toolC10] }

/-- Witness for C10 at a concrete unparsable schema. -/
theorem claim_C10_invalid_schema_fails_before_loop_witness :
    execute envC10 cfgC10 "q" =
      { executionId := "e10", status := .error, output := "", steps := [],
        tokensUsed := 0, cost := 0, executionTimeMs := 9,
        error := some "Unexpected token" } := by
  obtain ⟨e, h1, h2, _⟩ :=
    claim_C10_invalid_schema_fails_before_loop envC10 cfgC10 "q" toolC10
      "Unexpected token" (by decide) rfl
  have h4 : Except.error (ε := String) (α := String) e = .error "Unexpected token" :=
    h1.symm.trans (by rfl)
  injection h4 with h5
  rw [h5] at h2
  exact h2

/-! ## C3 -/

/-- Positional characterization of the tool-call loop: for the `k`-th tool
call, the three pushed steps sit at positions `3k`, `3k+1`, `3k+2` and the two
appended messages at `2k`, `2k+1`; the observation is the `Error:`-prefixed
message when the call threw. -/
theorem processToolCalls_get (te : Nat → Nat → String → String → Except String String)
    (it : Nat) (content : String) :
    ∀ (calls : List ToolCall) (j k : Nat) (tck : ToolCall), calls.get? k = some tck →
      (processToolCalls te it content calls j).1.get? (3 * k) =
        some (reasoningStep it content) ∧
      (processToolCalls te it content calls j).1.get? (3 * k + 1) =
        some (actionStep it tck.name tck.arguments) ∧
      (processToolCalls te it content calls j).1.get? (3 * k + 2) =
        some (observationStep it (observationOf te it (j + k) tck)) ∧
      (processToolCalls te it content calls j).2.get? (2 * k) =
        some (Message.mk .assistant content none) ∧
      (processToolCalls te it content calls j).2.get? (2 * k + 1) =
        some (Message.mk .function (observationOf te it (j + k) tck) (some tck.name)) := by
  intro calls
  induction calls with
  | nil => intro j k tck h; cases h
  | cons c cs ih =>
    intro j k tck h
    cases k with
    | zero =>
      rw [List.get?_cons_zero] at h
      injection h with h
      subst h
      simp [processToolCalls]
    | succ k =>
      rw [List.get?_cons_succ] at h
      have h3 : 3 * (k + 1) = 3 * k + 1 + 1 + 1 := by ring
      have h3a : 3 * (k + 1) + 1 = 3 * k + 1 + 1 + 1 + 1 := by ring
      have h3b : 3 * (k + 1) + 2 = 3 * k + 2 + 1 + 1 + 1 := by ring
      have h2 : 2 * (k + 1) = 2 * k + 1 + 1 := by ring
      have h2a : 2 * (k + 1) + 1 = 2 * k + 1 + 1 + 1 := by ring
      have hjk : j + 1 + k = j + (k + 1) := by omega
      obtain ⟨g1, g2, g3, g4, g5⟩ := ih (j + 1) k tck h
      rw [hjk] at g3 g5
      refine ⟨?_, ?_, ?_, ?_, ?_⟩
      · rw [h3]; simpa [processToolCalls, List.get?_cons_succ] using g1
      · rw [h3a]; simpa [processToolCalls, List.get?_cons_succ] using g2
      · rw [h3b]; simpa [processToolCalls, List.get?_cons_succ] using g3
      · rw [h2]; simpa [processToolCalls, List.get?_cons_succ] using g4
      · rw [h2a]; simpa [processToolCalls, List.get?_cons_succ] using g5

/-- Claim C3: a tool invocation that throws never terminates the execution.
When an iteration's response carries tool calls, the loop unconditionally
proceeds to the next iteration with the iteration's steps and the
assistant/tool-result message pair appended — whatever the tool oracle did —
and the observation recorded for a throwing call is its message prefixed
`Error: `, with the same text forwarded in the appended `function`-role
message. -/
theorem claim_C3_tool_throw_never_terminates (env : Env) (model : String)
    (timeoutSeconds maxIterations fuel iteration : Nat) (st : LoopState)
    (r : LLMResponse) (tc : ToolCall) (rest : List ToolCall)
    (hlt : iteration < maxIterations)
    (htime : env.elapsed (iteration + 1) ≤ timeoutSeconds * 1000)
    (hchat : env.chat (iteration + 1) = .ok r)
    (hcalls : r.toolCalls = some (tc :: rest)) :
    (runLoop env model timeoutSeconds maxIterations (fuel + 1) iteration st =
      runLoop env model timeoutSeconds maxIterations fuel (iteration + 1)
        { messages := st.messages ++
            (processToolCalls env.toolExec (iteration + 1) r.content (tc :: rest) 0).2,
          steps := st.steps ++
            (processToolCalls env.toolExec (iteration + 1) r.content (tc :: rest) 0).1,
          tokensUsed := st.tokensUsed + r.usage.totalTokens,
          cost := st.cost +
            calculateCost model r.usage.promptTokens r.usage.completionTokens }) ∧
    (∀ k tck m, (tc :: rest).get? k = some tck →
      env.toolExec (iteration + 1) k tck.name tck.arguments = .error m →
      (processToolCalls env.toolExec (iteration + 1) r.content (tc :: rest) 0).1.get?
          (3 * k + 2) =
        some (observationStep (iteration + 1) ("Error: " ++ m)) ∧
      (processToolCalls env.toolExec (iteration + 1) r.content (tc :: rest) 0).2.get?
          (2 * k) =
        some (Message.mk .assistant r.content none) ∧
      (processToolCalls env.toolExec (iteration + 1) r.content (tc :: rest) 0).2.get?
          (2 * k + 1) =
        some (Message.mk .function ("Error: " ++ m) (some tck.name))) := by
  constructor
  · rw [runLoop, if_pos hlt, if_neg (Nat.not_lt.mpr htime), hchat]
    simp only [hcalls]
  · intro k tck m hk hthrow
    obtain ⟨_, _, g3, g4, g5⟩ :=
      processToolCalls_get env.toolExec (iteration + 1) r.content (tc :: rest) 0 k tck hk
    have hobs : observationOf env.toolExec (iteration + 1) (0 + k) tck = "Error: " ++ m := by
      rw [Nat.zero_add, observationOf, hthrow]
    rw [hobs] at g3 g5
    exact ⟨g3, g4, g5⟩

/-- Tool call for the C3 witness. -/
def tcC3 : ToolCall := { id := "id1", name := "web_search", arguments := "args" }

/-- Gateway response for the C3 witness: one tool call. -/
def respC3 : LLMResponse :=
  { content := "thinking", toolCalls := some [tcC3],
    usage := { promptTokens := 1, completionTokens := 2, totalTokens := 3 },
    model := "gpt-4" }

/-- Environment for the C3 witness: the single tool call throws `"boom"`. -/
def envC3 : Env :=
  { executionId := "e3", parseSchema := sampleParse,
    chat := fun _ => .ok respC3,
    toolExec := fun _ _ _ _ => .error "boom",
    elapsed := fun _ => 0, endTime := 4 }

/-- Witness for C3: the throwing call's observation step and forwarded
`function`-role message carry `Error: boom`. -/
theorem claim_C3_tool_throw_never_terminates_witness :
    (processToolCalls envC3.toolExec 1 "thinking" [tcC3] 0).1.get? 2 =
      some (observationStep 1 ("Error: " ++ "boom")) ∧
    (processToolCalls envC3.toolExec 1 "thinking" [tcC3] 0).2.get? 1 =
      some (Message.mk .function ("Error: " ++ "boom") (some "web_search")) := by
  have h := (claim_C3_tool_throw_never_terminates envC3 "gpt-4" 300 2 1 0
    ⟨[], [], 0, 0⟩ respC3 tcC3 [] (by decide) (by decide) rfl rfl).2
    0 tcC3 "boom" rfl rfl
  exact ⟨h.1, h.2.2⟩

/-! ## C5 -/

/-- Every rate pair `calculateCost` can select — table entry or default — is
componentwise non-negative. -/
theorem tokenCosts_rates_nonneg (model : String) :
    0 ≤ ((TOKEN_COSTS model).getD (0.01 / 1000, 0.03 / 1000)).1 ∧
    0 ≤ ((TOKEN_COSTS model).getD (0.01 / 1000, 0.03 / 1000)).2 := by
  simp only [TOKEN_COSTS]
  split_ifs <;> norm_num [Option.getD]

/-- With non-negative token counts, `calculateCost` is non-negative. -/
theorem calculateCost_nonneg (model : String) {p c : Int}
    (hp : 0 ≤ p) (hc : 0 ≤ c) : 0 ≤ calculateCost model p c := by
  have h := tokenCosts_rates_nonneg model
  have hp' : (0 : ℚ) ≤ (p : ℚ) := by exact_mod_cast hp
  have hc' : (0 : ℚ) ≤ (c : ℚ) := by exact_mod_cast hc
  exact add_nonneg (mul_nonneg hp' h.1) (mul_nonneg hc' h.2)

/-- Claim C5: the cost added for an iteration equals
`promptTokens * inputRate + completionTokens * outputRate` with the rate pair
taken from the static table and the default pair for absent models (first
three conjuncts; the increment is shown for the final-answer iteration shape,
and the same `calculateCost` accumulation precedes the tool-call branch), and
— whenever the gateway only ever reports non-negative token counts — the
accumulated cost never decreases across the loop. -/
theorem claim_C5_cost_accumulation :
    (∀ model (p c : Int), TOKEN_COSTS model = none →
      calculateCost model p c = (p : ℚ) * (0.01 / 1000) + (c : ℚ) * (0.03 / 1000)) ∧
    (∀ model rates (p c : Int), TOKEN_COSTS model = some rates →
      calculateCost model p c = (p : ℚ) * rates.1 + (c : ℚ) * rates.2) ∧
    (∀ (env : Env) (model : String) (timeoutSeconds maxIterations fuel iteration : Nat)
        (st : LoopState) (r : LLMResponse),
      iteration < maxIterations →
      env.elapsed (iteration + 1) ≤ timeoutSeconds * 1000 →
      env.chat (iteration + 1) = .ok r →
      r.toolCalls = none →
      (runLoop env model timeoutSeconds maxIterations (fuel + 1) iteration st).state.cost =
        st.cost + calculateCost model r.usage.promptTokens r.usage.completionTokens) ∧
    (∀ (env : Env) (model : String) (timeoutSeconds maxIterations fuel iteration : Nat)
        (st : LoopState),
      (∀ i r, env.chat i = .ok r →
        0 ≤ r.usage.promptTokens ∧ 0 ≤ r.usage.completionTokens) →
      st.cost ≤ (runLoop env model timeoutSeconds maxIterations fuel iteration st).state.cost) := by
  refine ⟨?_, ?_, ?_, ?_⟩
  · intro model p c h
    simp [calculateCost, h]
  · intro model rates p c h
    simp [calculateCost, h]
  · intro env model timeoutSeconds maxIterations fuel iteration st r hlt htime hchat hnone
    rw [runLoop, if_pos hlt, if_neg (Nat.not_lt.mpr htime), hchat]
    simp only [hnone]
  · intro env model timeoutSeconds maxIterations fuel iteration st husage
    induction fuel generalizing iteration st with
    | zero => simp [runLoop]
    | succ fuel ih =>
      rw [runLoop]
      by_cases hlt : iteration < maxIterations
      · rw [if_pos hlt]
        by_cases htime : timeoutSeconds * 1000 < env.elapsed (iteration + 1)
        · rw [if_pos htime]
        · rw [if_neg htime]
          cases hchat : env.chat (iteration + 1) with
          | error e => simp
          | ok r =>
            obtain ⟨hp, hc⟩ := husage _ r hchat
            have hstep : st.cost ≤ st.cost +
                calculateCost model r.usage.promptTokens r.usage.completionTokens :=
              le_add_of_nonneg_right (calculateCost_nonneg model hp hc)
            cases htc : r.toolCalls with
            | none => simp only [htc]; simpa using hstep
            | some l =>
              cases l with
              | nil => simp only [htc]; simpa using hstep
              | cons tc rest =>
                simp only [htc]
                refine le_trans hstep ?_
                exact ih (iteration + 1) _
      · rw [if_neg hlt]

/-- Witness for C5 at concrete inputs: an unknown model uses the default rate
pair, a known model its table entry, a concrete final-answer iteration adds
exactly `calculateCost`, and a concrete loop never decreases the accumulated
cost. -/
theorem claim_C5_cost_accumulation_witness :
    calculateCost "no-such-model" 2 3 =
      (2 : ℚ) * (0.01 / 1000) + (3 : ℚ) * (0.03 / 1000) ∧
    calculateCost "gpt-4" 2 3 = (2 : ℚ) * (0.03 / 1000) + (3 : ℚ) * (0.06 / 1000) ∧
    (runLoop envC1 "gpt-4" 300 1 1 0 ⟨[], [], 0, 0⟩).state.cost =
      0 + calculateCost "gpt-4" 1 2 ∧
    (0 : ℚ) ≤ (runLoop envC1 "gpt-4" 300 1 1 0 ⟨[], [], 0, 0⟩).state.cost := by
  obtain ⟨h1, h2, h3, h4⟩ := claim_C5_cost_accumulation
  refine ⟨h1 "no-such-model" 2 3 rfl, h2 "gpt-4" (0.03 / 1000, 0.06 / 1000) 2 3 rfl,
    h3 envC1 "gpt-4" 300 1 0 0 ⟨[], [], 0, 0⟩ (finalResponse "42")
      (by decide) (by decide) rfl rfl, ?_⟩
  exact h4 envC1 "gpt-4" 300 1 1 0 ⟨[], [], 0, 0⟩
    (fun i r h => by
      injection h with h
      rw [← h]
      exact ⟨by decide, by decide⟩)

/-! ## C4 -/

/-- A (possibly empty) run of `reasoning → action → observation` triples, all
numbered `n`: the shape of the steps one iteration's tool-call loop pushes. -/
inductive RAOChain (n : Nat) : List ExecutionStep → Prop where
  | nil : RAOChain n []
  | cons (content tool args obs : String) {rest : List ExecutionStep} :
      RAOChain n rest →
      RAOChain n (reasoningStep n content :: actionStep n tool args ::
        observationStep n obs :: rest)

/-- The steps recorded by one iteration numbered `n`: a single `final` step, or
at least one `reasoning → action → observation` triple. -/
inductive IterBlock (n : Nat) : List ExecutionStep → Prop where
  | final (content : String) : IterBlock n [finalStep n content]
  | rao {l : List ExecutionStep} (h : RAOChain n l) (hne : l ≠ []) : IterBlock n l

/-- A step trace as the loop produces it: a concatenation of iteration blocks
with strictly increasing step numbers, all above `n`. -/
inductive BlockSeq : Nat → List ExecutionStep → Prop where
  | nil (n : Nat) : BlockSeq n []
  | cons {n m : Nat} {b rest : List ExecutionStep} :
      n < m → IterBlock m b → BlockSeq m rest → BlockSeq n (b ++ rest)

/-- Decidable check that every `action` step is immediately followed by an
`observation` step bearing the same step number. -/
def actionObsOK : List ExecutionStep → Bool
  | [] => true
  | s :: rest =>
    if s.stepType = StepType.action then
      match rest with
      | [] => false
      | o :: _ =>
        (o.stepType = StepType.observation : Bool) && (o.stepNumber = s.stepNumber : Bool) &&
          actionObsOK rest
    else actionObsOK rest

/-- Every step of an RAO chain carries the chain's number. -/
theorem raoChain_numbers {n : Nat} {l : List ExecutionStep} (h : RAOChain n l) :
    ∀ s ∈ l, s.stepNumber = n := by
  induction h with
  | nil => intro s hs; cases hs
  | cons content tool args obs _ ih =>
    intro s hs
    rcases hs with _ | ⟨_, hs⟩
    · rfl
    rcases hs with _ | ⟨_, hs⟩
    · rfl
    rcases hs with _ | ⟨_, hs⟩
    · rfl
    exact ih s hs

/-- Every step of an iteration block carries the block's number. -/
theorem iterBlock_numbers {n : Nat} {l : List ExecutionStep} (h : IterBlock n l) :
    ∀ s ∈ l, s.stepNumber = n := by
  cases h with
  | final content =>
    intro s hs
    rcases hs with _ | ⟨_, hs⟩
    · rfl
    · cases hs
  | rao hc _ => exact raoChain_numbers hc

/-- Every step of a block sequence above `n` has step number above `n`. -/
theorem blockSeq_numbers {n : Nat} {l : List ExecutionStep} (h : BlockSeq n l) :
    ∀ s ∈ l, n < s.stepNumber := by
  induction h with
  | nil => intro s hs; cases hs
  | cons hnm hb _ ih =>
    intro s hs
    rcases List.mem_append.mp hs with hs | hs
    · rw [iterBlock_numbers hb s hs]; exact hnm
    · exact lt_trans hnm (ih s hs)

/-- A block sequence has monotonically non-decreasing step numbers. -/
theorem BlockSeq.sorted {n : Nat} {l : List ExecutionStep} (h : BlockSeq n l) :
    (l.map ExecutionStep.stepNumber).Pairwise (· ≤ ·) := by
  induction h with
  | nil => simp
  | cons hnm hb hrest ih =>
    rw [List.map_append]
    refine List.pairwise_append.mpr ⟨?_, ih, ?_⟩
    · refine List.pairwise_of_forall_mem_list ?_
      intro x hx y hy
      obtain ⟨sx, hsx, rfl⟩ := List.mem_map.mp hx
      obtain ⟨sy, hsy, rfl⟩ := List.mem_map.mp hy
      rw [iterBlock_numbers hb sx hsx, iterBlock_numbers hb sy hsy]
    · intro x hx y hy
      obtain ⟨sx, hsx, rfl⟩ := List.mem_map.mp hx
      obtain ⟨sy, hsy, rfl⟩ := List.mem_map.mp hy
      rw [iterBlock_numbers hb sx hsx]
      exact le_of_lt (blockSeq_numbers hrest sy hsy)

/-- Appending after an RAO chain preserves the action/observation adjacency
check (the chain never ends in an `action`). -/
theorem actionObsOK_append_of_chain {n : Nat} {l : List ExecutionStep}
    (h : RAOChain n l) (rest : List ExecutionStep) :
    actionObsOK (l ++ rest) = actionObsOK rest := by
  induction h with
  | nil => rfl
  | cons content tool args obs htail ih =>
    simp only [List.cons_append, actionObsOK, reasoningStep, actionStep, observationStep,
      decide_eq_true_eq, if_neg, reduceCtorEq, if_false, Bool.and_eq_true, decide_True,
      Bool.true_and]
    simpa using ih

/-- A block sequence passes the action/observation adjacency check. -/
theorem BlockSeq.actionObs {n : Nat} {l : List ExecutionStep} (h : BlockSeq n l) :
    actionObsOK l = true := by
  induction h with
  | nil => rfl
  | cons hnm hb _ ih =>
    cases hb with
    | final content =>
      simpa only [List.singleton_append, actionObsOK, finalStep, if_neg, reduceCtorEq] using ih
    | rao hc _ => rw [actionObsOK_append_of_chain hc, ih]

/-- The steps a tool-call loop pushes form an RAO chain at its iteration
number. -/
theorem processToolCalls_chain (te : Nat → Nat → String → String → Except String String)
    (it : Nat) (content : String) :
    ∀ (calls : List ToolCall) (j : Nat),
      RAOChain it (processToolCalls te it content calls j).1 := by
  intro calls
  induction calls with
  | nil => intro j; exact RAOChain.nil
  | cons c cs ih =>
    intro j
    simpa only [processToolCalls] using
      RAOChain.cons content c.name c.arguments (observationOf te it j c) (ih (j + 1))

/-- Loop invariant: the loop only ever appends complete iteration blocks with
step numbers strictly above the entry iteration counter — in every exit case,
including a mid-loop gateway throw. -/
theorem runLoop_steps_blockSeq (env : Env) (model : String)
    (timeoutSeconds maxIterations : Nat) :
    ∀ (fuel iteration : Nat) (st : LoopState),
      ∃ T, (runLoop env model timeoutSeconds maxIterations fuel iteration st).state.steps =
        st.steps ++ T ∧ BlockSeq iteration T := by
  intro fuel
  induction fuel with
  | zero => intro iteration st; exact ⟨[], by simp [runLoop], BlockSeq.nil iteration⟩
  | succ fuel ih =>
    intro iteration st
    rw [runLoop]
    by_cases hlt : iteration < maxIterations
    · rw [if_pos hlt]
      by_cases htime : timeoutSeconds * 1000 < env.elapsed (iteration + 1)
      · rw [if_pos htime]
        exact ⟨[], by simp, BlockSeq.nil iteration⟩
      · rw [if_neg htime]
        cases hchat : env.chat (iteration + 1) with
        | error e => exact ⟨[], by simp, BlockSeq.nil iteration⟩
        | ok r =>
          cases htc : r.toolCalls with
          | none =>
            refine ⟨[finalStep (iteration + 1) r.content], by simp [htc], ?_⟩
            simpa using BlockSeq.cons (Nat.lt_succ_self iteration)
              (IterBlock.final r.content) (BlockSeq.nil (iteration + 1))
          | some l =>
            cases l with
            | nil =>
              refine ⟨[finalStep (iteration + 1) r.content], by simp [htc], ?_⟩
              simpa using BlockSeq.cons (Nat.lt_succ_self iteration)
                (IterBlock.final r.content) (BlockSeq.nil (iteration + 1))
            | cons tc rest =>
              simp only [htc]
              obtain ⟨T, hT, hSeq⟩ := ih (iteration + 1)
                { messages := st.messages ++
                    (processToolCalls env.toolExec (iteration + 1) r.content (tc :: rest) 0).2,
                  steps := st.steps ++
                    (processToolCalls env.toolExec (iteration + 1) r.content (tc :: rest) 0).1,
                  tokensUsed := st.tokensUsed + r.usage.totalTokens,
                  cost := st.cost +
                    calculateCost model r.usage.promptTokens r.usage.completionTokens }
              refine ⟨(processToolCalls env.toolExec (iteration + 1) r.content
                (tc :: rest) 0).1 ++ T, ?_, ?_⟩
              · rw [← List.append_assoc]
                exact hT
              · refine BlockSeq.cons (Nat.lt_succ_self iteration)
                  (IterBlock.rao (processToolCalls_chain env.toolExec (iteration + 1)
                    r.content (tc :: rest) 0) ?_) hSeq
                simp [processToolCalls]
    · rw [if_neg hlt]
      exact ⟨[], by simp, BlockSeq.nil iteration⟩

/-- The full step trace of any execution is a block sequence starting above 0,
in every termination case. -/
theorem execute_steps_blockSeq (env : Env) (cfg : AgentConfig) (input : String) :
    BlockSeq 0 (execute env cfg input).steps := by
  unfold execute executeBody
  cases hb : buildSystemPromptE env.parseSchema cfg.systemPrompt cfg.tools with
  | error e => exact BlockSeq.nil 0
  | ok sys =>
    obtain ⟨T, hT, hSeq⟩ := runLoop_steps_blockSeq env cfg.model cfg.timeoutSeconds
      cfg.maxIterations cfg.maxIterations 0
      ⟨[⟨.system, sys, none⟩, ⟨.user, input, none⟩], [], 0, 0⟩
    rw [List.nil_append] at hT
    cases hthrown : (runLoop env cfg.model cfg.timeoutSeconds cfg.maxIterations
        cfg.maxIterations 0 ⟨[⟨.system, sys, none⟩, ⟨.user, input, none⟩], [], 0, 0⟩).thrown with
    | some e => simpa [hthrown, hT] using hSeq
    | none => simpa [hthrown, hT] using hSeq

/-- Claim C4: for every execution, the recorded step sequence is a
concatenation of per-iteration blocks with strictly increasing, shared step
numbers, each block being either `reasoning → action → observation` repeated
once per tool call or a single `final` step (`BlockSeq`); consequently the
step numbers are monotonically non-decreasing, and every `action` step is
immediately followed by an `observation` step with the same number. -/
theorem claim_C4_step_trace_shape (env : Env) (cfg : AgentConfig) (input : String) :
    BlockSeq 0 (execute env cfg input).steps ∧
    ((execute env cfg input).steps.map ExecutionStep.stepNumber).Pairwise (· ≤ ·) ∧
    actionObsOK (execute env cfg input).steps = true :=
  ⟨execute_steps_blockSeq env cfg input,
   (execute_steps_blockSeq env cfg input).sorted,
   (execute_steps_blockSeq env cfg input).actionObs⟩

/-! ## C6 -/

/-- A provider reply for the C6 counterexample whose counters are
inconsistent: `total_tokens = 5` but `prompt + completion = 2`. -/
def openAIRespC6 : OpenAIResponse :=
  { choices := [{ message := { content := some "hi", tool_calls := none } }],
    usage := some { prompt_tokens := some 1, completion_tokens := some 1,
                    total_tokens := some 5 },
    model := "gpt-4" }

/-- The uniform response the gateway builds from `openAIRespC6`. -/
def llmRespC6 : LLMResponse :=
  { content := "hi", toolCalls := none,
    usage := { promptTokens := 1, completionTokens := 1, totalTokens := 5 },
    model := "gpt-4" }

/-- OpenAI provider oracle for the C6 counterexample. -/
def openaiProviderC6 : OpenAIRequest → OpenAIResponse := fun _ => openAIRespC6

/-- Anthropic provider oracle for the C6 counterexample (never reached). -/
def anthropicProviderC6 : AnthropicRequest → AnthropicResponse :=
  fun _ => { content := [], usage := { input_tokens := 0, output_tokens := 0 },
             model := "claude-3-opus-20240229" }

/-- Counterexample to C6 as stated: the OpenAI branch of `LLMClient.chat`
forwards the provider's counters verbatim, so a provider reply with
`total_tokens = 5`, `prompt_tokens = 1`, `completion_tokens = 1` yields a
gateway response violating `totalTokens == promptTokens + completionTokens`. -/
theorem claim_C6_usage_counterexample :
    LLMClient.chat Except.ok openaiProviderC6 anthropicProviderC6 []
      "gpt-4" [] (7 / 10) 4096 = .ok llmRespC6 ∧
    llmRespC6.usage.totalTokens ≠
      llmRespC6.usage.promptTokens + llmRespC6.usage.completionTokens := by
  exact ⟨rfl, by decide⟩

/-- Claim C6 as amended: the Anthropic branch always returns
`totalTokens = promptTokens + completionTokens` (it computes the sum itself),
while the OpenAI branch forwards the provider's three counters verbatim (with
`|| 0` defaults), so there the identity holds exactly when the provider's own
counters satisfy it. -/
theorem claim_C6_usage_totals_amended :
    (∀ (messages : List Message) (model : String) (tools : List Tool)
        (temperature : ℚ) (maxTokens : Nat)
        (provider : AnthropicRequest → AnthropicResponse),
      (chatAnthropic messages model tools temperature maxTokens provider).usage.totalTokens =
        (chatAnthropic messages model tools temperature maxTokens provider).usage.promptTokens +
        (chatAnthropic messages model tools temperature maxTokens provider).usage.completionTokens) ∧
    (∀ (parseJson : String → Except String String) (resp : OpenAIResponse)
        (r : LLMResponse),
      chatOpenAI parseJson resp = .ok r → r.usage = openAIUsageOf resp.usage) := by
  constructor
  · intro messages model tools temperature maxTokens provider
    rfl
  · intro parseJson resp r h
    cases hc : resp.choices with
    | nil => simp only [chatOpenAI, hc] at h; cases h
    | cons choice tail =>
      simp only [chatOpenAI, hc] at h
      cases htc : choice.message.tool_calls with
      | none =>
        simp only [htc] at h
        injection h with h
        rw [← h]
      | some tcs =>
        simp only [htc] at h
        cases hm : mapToolCalls parseJson tcs with
        | error e => simp only [hm] at h; cases h
        | ok toolCalls =>
          simp only [hm] at h
          injection h with h
          rw [← h]

/-- Witness for the amended C6: a consistent Anthropic reply sums its
counters, and the concrete OpenAI reply above is forwarded verbatim. -/
theorem claim_C6_usage_totals_amended_witness :
    (chatAnthropic [] "claude-3-opus-20240229" [] (7 / 10) 4096
        anthropicProviderC6).usage.totalTokens =
      (chatAnthropic [] "claude-3-opus-20240229" [] (7 / 10) 4096
        anthropicProviderC6).usage.promptTokens +
      (chatAnthropic [] "claude-3-opus-20240229" [] (7 / 10) 4096
        anthropicProviderC6).usage.completionTokens ∧
    llmRespC6.usage = openAIUsageOf openAIRespC6.usage :=
  ⟨claim_C6_usage_totals_amended.1 [] "claude-3-opus-20240229" [] (7 / 10) 4096
      anthropicProviderC6,
   claim_C6_usage_totals_amended.2 Except.ok openAIRespC6 llmRespC6 rfl⟩

/-! ## C9 -/

/-- Claim C9: in the Anthropic branch, the turn-message list sent to the
provider contains no system-role entry; the separate top-level `system` field
carries the first system-role message's content (empty string when absent);
and the turn list is exactly the non-system messages with `assistant` kept and
every other role — in particular `function`-role tool results — forwarded as
`user`, the originating tool name dropped (the turn shape has no name field). -/
theorem claim_C9_anthropic_request_shape (messages : List Message) (model : String)
    (tools : List Tool) (temperature : ℚ) (maxTokens : Nat) :
    (∀ p ∈ (anthropicRequest messages model tools temperature maxTokens).messages,
      p.role ≠ "system") ∧
    (anthropicRequest messages model tools temperature maxTokens).system =
      ((messages.find? (fun m => m.role = Role.system)).map Message.content).getD "" ∧
    (anthropicRequest messages model tools temperature maxTokens).messages =
      (messages.filter (fun m => ¬(m.role = Role.system))).map
        (fun m => AnthropicParam.mk
          (if m.role = Role.assistant then "assistant" else "user") m.content) ∧
    (∀ m ∈ messages, m.role = Role.function →
      AnthropicParam.mk "user" m.content ∈
        (anthropicRequest messages model tools temperature maxTokens).messages) := by
  refine ⟨?_, rfl, rfl, ?_⟩
  · intro p hp
    simp only [anthropicRequest, List.mem_map] at hp
    obtain ⟨m, _, rfl⟩ := hp
    by_cases h : m.role = Role.assistant <;> simp [h]
  · intro m hm hrole
    have hmem : m ∈ messages.filter (fun m => ¬(m.role = Role.system)) :=
      List.mem_filter.mpr ⟨hm, by simp [hrole]⟩
    have := List.mem_map_of_mem
      (fun m => AnthropicParam.mk
        (if m.role = Role.assistant then "assistant" else "user") m.content) hmem
    simpa [anthropicRequest, hrole] using this

/-- Message list for the C9 witness, containing a system prompt, a user turn,
an assistant turn and a tool-result turn. -/
def msgsC9 : List Message :=
  [⟨.system, "sp", none⟩, ⟨.user, "u", none⟩, ⟨.assistant, "a", none⟩,
   ⟨.function, "obs", some "web_search"⟩]

/-- Witness for C9: the concrete tool-result message is forwarded as a
`user` turn with its name dropped, and that turn is not system-role. -/
theorem claim_C9_anthropic_request_shape_witness :
    AnthropicParam.mk "user" "obs" ∈
      (anthropicRequest msgsC9 "claude-3-opus-20240229" [] (7 / 10) 4096).messages ∧
    (AnthropicParam.mk "user" "obs").role ≠ "system" := by
  have h := claim_C9_anthropic_request_shape msgsC9 "claude-3-opus-20240229" [] (7 / 10) 4096
  have hmem := h.2.2.2 ⟨.function, "obs", some "web_search"⟩ (by decide) rfl
  exact ⟨hmem, h.1 (AnthropicParam.mk "user" "obs") hmem⟩

/-! ## C8 -/

/-- Claim C8: `ToolExecutor.execute` never propagates an exception — every
throw out of the dispatch body is converted by the outer catch into
`{success: false, error}` — and a tool name outside the fixed five-entry
registry yields `{success: false, error: "Unknown tool: <name>"}` for every
argument payload and environment. -/
theorem claim_C8_unknown_tool_never_throws :
    (∀ (env : ToolEnv) (toolName : String) (args : Args) (e : String),
      ToolExecutor.executeBody env toolName args = .error e →
      ToolExecutor.execute env toolName args =
        { success := false, data := none, error := some e }) ∧
    (∀ (env : ToolEnv) (toolName : String) (args : Args),
      toolName ∉ (["web_search", "send_email", "database_query", "http_request",
        "slack_notify"] : List String) →
      ToolExecutor.execute env toolName args =
        { success := false, data := none,
          error := some ("Unknown tool: " ++ toolName) }) := by
  constructor
  · intro env toolName args e h
    simp only [ToolExecutor.execute, h]
  · intro env toolName args h
    simp only [List.mem_cons, List.not_mem_nil, or_false, not_or] at h
    obtain ⟨h1, h2, h3, h4, h5⟩ := h
    simp only [ToolExecutor.execute, ToolExecutor.executeBody,
      if_neg h1, if_neg h2, if_neg h3, if_neg h4, if_neg h5]

/-- Tool environment for the C8 witness. -/
def toolEnvC8 : ToolEnv :=
  { perplexityApiKey := none,
    fetchPerplexity := fun _ => .error "offline",
    parsePerplexity := fun _ => .error "offline",
    fetchHttp := fun _ => .error "offline" }

/-- Witness for C8: the unregistered name `frobnicate` fails softly with an
unknown-tool error naming it. -/
theorem claim_C8_unknown_tool_never_throws_witness :
    ToolExecutor.execute toolEnvC8 "frobnicate" {} =
      { success := false, data := none,
        error := some ("Unknown tool: " ++ "frobnicate") } :=
  claim_C8_unknown_tool_never_throws.2 toolEnvC8 "frobnicate" {} (by decide)
